import Mathlib

/-!
Shallow embedding of the SystemML Python convenience layer
(`systemml/mlcontext.py` and `systemml/mllearn/estimators.py`) and proofs
about its validation, dispatch and result-unwrapping behaviour.

Remote JVM calls have no local effect on the properties considered here;
they are either abstracted as oracle parameters or recorded structurally
(which remote setters ran, with which arguments).  Python exceptions are
modelled by an explicit error type; machine floats are modelled by `Rat`
(the code performs a single exact-looking division `1.0 / C` and
comparisons against zero, no float-specific behaviour).
-/

/-- Python exceptions raised (or reachable) in the embedded code. -/
inductive PyError where
  | valueError (msg : String)
  | typeError (msg : String)
  | exceptionMsg (msg : String)
  | unboundLocal (varName : String)
deriving DecidableEq

/-- Embeds the `Script` object of mlcontext.py: source text or path, a
language tag, and the accumulated input bindings and output names. -/
structure Script where
  scriptString : String
  scriptType : String
  inputs : List (String × String)
  outputs : List String
deriving DecidableEq

/-- Argument passed to the `dml` / `pydml` builders: a Python string or
some other Python value (described by its type name). -/
inductive StrArg where
  | str (s : String)
  | notStr (typeDesc : String)
deriving DecidableEq

/-- Embeds `dml(scriptString)`: validates that the argument is a string and
tags the script with the "dml" dialect. -/
def dml (arg : StrArg) : Except PyError Script :=
  match arg with
  | .str s => .ok ⟨s, "dml", [], []⟩
  | .notStr d => .error (.valueError ("scriptString should be a string, got " ++ d))

/-- Embeds `pydml(scriptString)`: validates that the argument is a string
and tags the script with the "pydml" dialect. -/
def pydml (arg : StrArg) : Except PyError Script :=
  match arg with
  | .str s => .ok ⟨s, "pydml", [], []⟩
  | .notStr d => .error (.valueError ("scriptString should be a string, got " ++ d))

/-- The remote `script_java` object built by `MLContext.execute` via the
JVM-side ScriptFactory: from a file or from inline text, per dialect. -/
inductive ScriptJava where
  | dmlFromFile (path : String)
  | dmlText (s : String)
  | pydmlFromFile (path : String)
  | pydmlText (s : String)
deriving DecidableEq

/-- Argument passed to `MLContext.execute`: a `Script` instance or some
other Python value. -/
inductive ExecuteArg where
  | script (s : Script)
  | notScript (typeDesc : String)
deriving DecidableEq

/-- Embeds `MLContext.execute` up to the remote submission, with the file
system abstracted as a predicate `fs` (`os.path.exists`).  The source has
an `if scriptType == "dml" ... elif scriptType == "pydml" ...` chain with
no `else`; for any other tag the local variable `script_java` is never
assigned, so its first use raises `UnboundLocalError`.  The remote
`input`/`out` binding loops and `ml.execute` run only after a successful
resolution and raise nothing locally, so the function's locally decided
outcome is the resolved `script_java` or the error. -/
def MLContext.execute (fs : String → Bool) (arg : ExecuteArg) : Except PyError ScriptJava :=
  match arg with
  | .notScript _ => .error (.valueError "Expected script to be an instance of Script")
  | .script script =>
    let s := script.scriptString
    if script.scriptType = "dml" then
      if s.endsWith ".dml" then
        if fs s then .ok (.dmlFromFile s)
        else .error (.valueError ("path: " ++ s ++ " does not exist"))
      else .ok (.dmlText s)
    else if script.scriptType = "pydml" then
      if s.endsWith ".pydml" then
        if fs s then .ok (.pydmlFromFile s)
        else .error (.valueError ("path: " ++ s ++ " does not exist"))
      else .ok (.pydmlText s)
    else .error (.unboundLocal "script_java")

/-- Result of the `MLResults` getters: Python returns the bare value for a
single requested output and a list otherwise. -/
inductive GetResult (α : Type) where
  | single (a : α)
  | multi (l : List α)
deriving DecidableEq

/-- The shared tail of the three `MLResults` getters:
`if len(outs) == 1: return outs[0]` / `return outs`. -/
def unwrapSingle {α : Type} (outs : List α) : GetResult α :=
  if h : outs.length = 1 then .single (outs.get ⟨0, by omega⟩) else .multi outs

/-- Embeds `MLResults.get`: the per-name fetch
(`_java2py(sc, self._java_results.get(out))`) is remote and abstracted as
`fetch`. -/
def MLResults.get {α : Type} (fetch : String → α) (outputs : List String) : GetResult α :=
  unwrapSingle (outputs.map fetch)

/-- Embeds `MLResults.getNumPyArray`: the per-name fetch
(`convertToNumpyArr` of the remote matrix block) is abstracted as `fetch`. -/
def MLResults.getNumPyArray {α : Type} (fetch : String → α) (outputs : List String) : GetResult α :=
  unwrapSingle (outputs.map fetch)

/-- Embeds `MLResults.getDataFrame`: the per-name fetch (wrapping the
remote `getDataFrame(out)` handle) is abstracted as `fetch`. -/
def MLResults.getDataFrame {α : Type} (fetch : String → α) (outputs : List String) : GetResult α :=
  unwrapSingle (outputs.map fetch)

lemma unwrapSingle_of_two_le {α : Type} (outs : List α) (h : 2 ≤ outs.length) :
    unwrapSingle outs = .multi outs := by
  unfold unwrapSingle
  rw [dif_neg]
  omega

lemma unwrapSingle_singleton {α : Type} (a : α) : unwrapSingle [a] = .single a := rfl

/-- Claim C1 (code_bug evidence): executing a Script whose scriptType is
neither "dml" nor "pydml" does not raise a descriptive ValueError about
the unsupported language tag; it raises UnboundLocalError on the
never-assigned local `script_java`. -/
theorem claim1_unknown_scripttype_unbound_local :
    MLContext.execute (fun _ => false) (.script ⟨"x = 5", "scala", [], []⟩) =
      .error (.unboundLocal "script_java") ∧
    ∀ msg, MLContext.execute (fun _ => false) (.script ⟨"x = 5", "scala", [], []⟩) ≠
      .error (.valueError msg) := by
  refine ⟨rfl, ?_⟩
  intro msg h
  simp [MLContext.execute] at h

/-- Claim C3: on execute, a dml Script's string is resolved as a local file
path exactly when it ends with ".dml" (pydml: ".pydml"); a non-existent
path raises a ValueError naming the path, an existing one is loaded from
file, and every other string is submitted as inline script text. -/
theorem claim3_script_path_resolution (fs : String → Bool) (s : String)
    (ins : List (String × String)) (outs : List String) :
    (MLContext.execute fs (.script ⟨s, "dml", ins, outs⟩) =
      (if s.endsWith ".dml" then
        (if fs s then .ok (.dmlFromFile s)
         else .error (.valueError ("path: " ++ s ++ " does not exist")))
       else .ok (.dmlText s))) ∧
    (MLContext.execute fs (.script ⟨s, "pydml", ins, outs⟩) =
      (if s.endsWith ".pydml" then
        (if fs s then .ok (.pydmlFromFile s)
         else .error (.valueError ("path: " ++ s ++ " does not exist")))
       else .ok (.pydmlText s))) := by
  constructor <;> simp [MLContext.execute]

/-- Claim C2: each MLResults getter returns the outputs in requested order
as a list when two or more names are requested, and the bare value when
exactly one name is requested. -/
theorem claim2_results_unwrap {α : Type} (f g k : String → α) (names : List String) :
    (2 ≤ names.length →
      MLResults.get f names = .multi (names.map f) ∧
      MLResults.getNumPyArray g names = .multi (names.map g) ∧
      MLResults.getDataFrame k names = .multi (names.map k)) ∧
    (∀ n : String, names = [n] →
      MLResults.get f names = .single (f n) ∧
      MLResults.getNumPyArray g names = .single (g n) ∧
      MLResults.getDataFrame k names = .single (k n)) := by
  constructor
  · intro h
    refine ⟨?_, ?_, ?_⟩ <;>
      simp only [MLResults.get, MLResults.getNumPyArray, MLResults.getDataFrame] <;>
      exact unwrapSingle_of_two_le _ (by simpa using h)
  · intro n hn
    subst hn
    exact ⟨rfl, rfl, rfl⟩

/-- Witness for C2 at concrete inputs: two names give the ordered list,
one name gives the bare value. -/
theorem claim2_results_unwrap_witness :
    MLResults.get (fun n => n ++ "!") ["a", "b"] = .multi ["a!", "b!"] ∧
    MLResults.get (fun n => n ++ "!") ["a"] = .single "a!" := by
  constructor
  · exact ((claim2_results_unwrap (fun n => n ++ "!") (fun n => n) (fun n => n)
      ["a", "b"]).1 (by decide)).1
  · exact ((claim2_results_unwrap (fun n => n ++ "!") (fun n => n) (fun n => n)
      ["a"]).2 "a" rfl).1

/-- Claim C10: requesting zero outputs from any MLResults getter does not
raise; it returns the empty list (unwrapping applies only to exactly one
name). -/
theorem claim10_zero_outputs_empty_list {α : Type} (f g k : String → α) :
    MLResults.get f [] = .multi ([] : List α) ∧
    MLResults.getNumPyArray g [] = .multi ([] : List α) ∧
    MLResults.getDataFrame k [] = .multi ([] : List α) :=
  ⟨rfl, rfl, rfl⟩

/-- Argument passed to the `MLContext` constructor: a SparkContext or some
other Python value, with the cases relevant to Python percent-formatting
semantics distinguished. -/
inductive ScArg where
  | sparkContext
  | pyInt (n : Int)
  | pyStr (s : String)
  | emptyTuple
  | pyDict
deriving DecidableEq

/-- Python `fmt % arg` for a format string `fmt` containing no conversion
specifier: a mapping or an empty tuple yields `fmt` unchanged; any other
argument is treated as a one-element tuple and raises
`TypeError: not all arguments converted during string formatting`. -/
def pyFormatNoSpec (fmt : String) (arg : ScArg) : Except PyError String :=
  match arg with
  | .emptyTuple => .ok fmt
  | .pyDict => .ok fmt
  | _ => .error (.typeError "not all arguments converted during string formatting")

/-- Embeds `MLContext.__init__` up to the remote construction.  The source
raises `ValueError("Expected sc to be a SparkContext, got " % sc)`: the
format string has no `%s`, so the percent-formatting itself is evaluated
first and raises `TypeError` for typical non-SparkContext arguments. -/
def MLContext.init (sc : ScArg) : Except PyError Unit :=
  match sc with
  | .sparkContext => .ok ()
  | _ =>
    match pyFormatNoSpec "Expected sc to be a SparkContext, got " sc with
    | .error e => .error e
    | .ok m => .error (.valueError m)

/-- Claim C4 (code_bug evidence): constructing MLContext with a
non-SparkContext argument (here the integer 5) raises TypeError from the
botched percent-formatting, not a ValueError saying a SparkContext was
expected. -/
theorem claim4_nonspark_init_typeerror :
    MLContext.init (.pyInt 5) =
      .error (.typeError "not all arguments converted during string formatting") ∧
    ∀ msg, MLContext.init (.pyInt 5) ≠ .error (.valueError msg) := by
  refine ⟨rfl, ?_⟩
  intro msg h
  simp [MLContext.init, pyFormatNoSpec] at h

/-- Remote state of the JVM LogisticRegression estimator: which setters
have run and with which arguments (`none` means never set). -/
structure LogRegRemote where
  maxOuterIter : Option Int
  maxInnerIter : Option Int
  regParam : Option Rat
  tol : Option Rat
  icpt : Option Int
deriving DecidableEq

/-- Remote state of the JVM LinearRegression estimator; the solver is an
argument of its constructor. -/
structure LinRegRemote where
  solver : String
  maxIter : Option Int
  regParam : Option Rat
  tol : Option Rat
  icpt : Option Int
deriving DecidableEq

/-- Remote state of the JVM SVM estimator; `is_multi_class` is an argument
of its constructor. -/
structure SVMRemote where
  is_multi_class : Bool
  maxIter : Option Int
  regParam : Option Rat
  tol : Option Rat
  icpt : Option Int
deriving DecidableEq

/-- Embeds `LogisticRegression.__init__`: the result is the remote
estimator state reached (setters before a raise have run) together with
the exception raised, if any.  Source order: setMaxOuterIter,
setMaxInnerIter, the C check, setRegParam(1.0 / C), setTol, setIcpt, the
penalty check, the solver check. -/
def LogisticRegression.init (penalty : String) (fit_intercept : Bool)
    (max_iter max_inner_iter : Int) (tol C : Rat) (solver : String) :
    LogRegRemote × Option PyError :=
  if C ≤ 0 then
    (⟨some max_iter, some max_inner_iter, none, none, none⟩,
     some (.exceptionMsg "C has to be positive"))
  else
    let e : LogRegRemote :=
      ⟨some max_iter, some max_inner_iter, some (1 / C), some tol,
       some (if fit_intercept then 1 else 0)⟩
    if penalty ≠ "l2" then (e, some (.exceptionMsg "Only l2 penalty is supported"))
    else if solver ≠ "newton-cg" then (e, some (.exceptionMsg "Only newton-cg solver supported"))
    else (e, none)

/-- Embeds `LinearRegression.__init__`.  Source order: the solver check
(the remote estimator is only constructed for "newton-cg" or
"direct-solve"; otherwise the constructor raises before anything is set),
setMaxIter, the C check, setRegParam(1.0 / C), setTol, setIcpt. -/
def LinearRegression.init (fit_intercept : Bool) (max_iter : Int)
    (tol C : Rat) (solver : String) :
    Option LinRegRemote × Option PyError :=
  if solver = "newton-cg" ∨ solver = "direct-solve" then
    if C ≤ 0 then
      (some ⟨solver, some max_iter, none, none, none⟩,
       some (.exceptionMsg "C has to be positive"))
    else
      (some ⟨solver, some max_iter, some (1 / C), some tol,
        some (if fit_intercept then 1 else 0)⟩, none)
  else (none, some (.exceptionMsg "Only newton-cg solver supported"))

/-- Embeds `SVM.__init__`.  Source order: construct the remote estimator,
setMaxIter, the C check, setRegParam(1.0 / C), setTol, setIcpt. -/
def SVM.init (fit_intercept : Bool) (max_iter : Int) (tol C : Rat)
    (imc : Bool) : SVMRemote × Option PyError :=
  if C ≤ 0 then
    (⟨imc, some max_iter, none, none, none⟩, some (.exceptionMsg "C has to be positive"))
  else
    (⟨imc, some max_iter, some (1 / C), some tol,
      some (if fit_intercept then 1 else 0)⟩, none)

/-- Counterexample for C5 as stated: with an invalid solver and C ≤ 0,
LinearRegression raises the solver error, not "C has to be positive"
(the solver check precedes the C check). -/
theorem claim5_counterexample :
    (LinearRegression.init true 100 (1 / 1000000) (-1) "foo").2 =
      some (.exceptionMsg "Only newton-cg solver supported") ∧
    (LinearRegression.init true 100 (1 / 1000000) (-1) "foo").2 ≠
      some (.exceptionMsg "C has to be positive") := by
  constructor
  · rfl
  · decide

/-- Claim C5 as amended: for C ≤ 0, LogisticRegression and SVM raise
"C has to be positive" whatever the other arguments, and LinearRegression
does so provided its solver is valid (an invalid solver raises the solver
error first).  For C > 0 none of the three raises on account of C, and
the remote regularization parameter is set to 1.0 / C whenever it is
reached: unconditionally for LogisticRegression and SVM, and for
LinearRegression when the solver is valid. -/
theorem claim5_amended_regularization (penalty : String) (fi : Bool)
    (mi mii : Int) (tol C : Rat) (solver lsolver : String) (imc : Bool) :
    (C ≤ 0 →
      (LogisticRegression.init penalty fi mi mii tol C solver).2 =
        some (.exceptionMsg "C has to be positive") ∧
      (SVM.init fi mi tol C imc).2 = some (.exceptionMsg "C has to be positive") ∧
      (lsolver = "newton-cg" ∨ lsolver = "direct-solve" →
        (LinearRegression.init fi mi tol C lsolver).2 =
          some (.exceptionMsg "C has to be positive"))) ∧
    (0 < C →
      (LogisticRegression.init penalty fi mi mii tol C solver).2 ≠
        some (.exceptionMsg "C has to be positive") ∧
      (LogisticRegression.init penalty fi mi mii tol C solver).1.regParam = some (1 / C) ∧
      (SVM.init fi mi tol C imc).2 = none ∧
      (SVM.init fi mi tol C imc).1.regParam = some (1 / C) ∧
      (lsolver = "newton-cg" ∨ lsolver = "direct-solve" →
        (LinearRegression.init fi mi tol C lsolver).2 = none ∧
        (LinearRegression.init fi mi tol C lsolver).1 =
          some ⟨lsolver, some mi, some (1 / C), some tol,
            some (if fi then 1 else 0)⟩)) := by
  constructor
  · intro h
    refine ⟨?_, ?_, ?_⟩
    · simp [LogisticRegression.init, if_pos h]
    · simp [SVM.init, if_pos h]
    · intro hs
      simp [LinearRegression.init, if_pos hs, if_pos h]
  · intro h
    have hn : ¬ C ≤ 0 := not_le.mpr h
    refine ⟨?_, ?_, ?_, ?_, ?_⟩
    · simp only [LogisticRegression.init, if_neg hn]
      by_cases hp : penalty = "l2" <;> by_cases hsv : solver = "newton-cg" <;>
        simp [hp, hsv]
    · simp only [LogisticRegression.init, if_neg hn]
      by_cases hp : penalty = "l2" <;> by_cases hsv : solver = "newton-cg" <;>
        simp [hp, hsv]
    · simp [SVM.init, if_neg hn]
    · simp [SVM.init, if_neg hn]
    · intro hs
      simp [LinearRegression.init, if_pos hs, if_neg hn]

/-- Witness for the amended C5 at concrete inputs: C = -2 raises the C
error in all three constructors (LinearRegression with a valid solver);
C = 2 raises nothing on account of C and sets regParam to 1/2. -/
theorem claim5_amended_regularization_witness :
    (LogisticRegression.init "l2" true 100 0 (1 / 1000000) (-2) "newton-cg").2 =
      some (.exceptionMsg "C has to be positive") ∧
    (SVM.init true 100 (1 / 1000000) (-2) false).2 =
      some (.exceptionMsg "C has to be positive") ∧
    (LinearRegression.init true 100 (1 / 1000000) (-2) "direct-solve").2 =
      some (.exceptionMsg "C has to be positive") ∧
    (LogisticRegression.init "l2" true 100 0 (1 / 1000000) 2 "newton-cg").1.regParam =
      some (1 / 2) ∧
    (SVM.init true 100 (1 / 1000000) 2 false).2 = none := by
  have hneg := (claim5_amended_regularization "l2" true 100 0 (1 / 1000000) (-2)
    "newton-cg" "direct-solve" false).1 (by norm_num)
  have hpos := (claim5_amended_regularization "l2" true 100 0 (1 / 1000000) 2
    "newton-cg" "direct-solve" false).2 (by norm_num)
  exact ⟨hneg.1, hneg.2.1, hneg.2.2 (Or.inr rfl), hpos.2.1, hpos.2.2.1⟩

/-- Claim C6: LogisticRegression raises for every penalty other than "l2"
and for every solver other than "newton-cg"; LinearRegression raises for
every solver other than "newton-cg" or "direct-solve". -/
theorem claim6_penalty_solver_validation (penalty : String) (fi : Bool)
    (mi mii : Int) (tol C : Rat) (solver lsolver : String) :
    (penalty ≠ "l2" →
      ((LogisticRegression.init penalty fi mi mii tol C solver).2).isSome) ∧
    (solver ≠ "newton-cg" →
      ((LogisticRegression.init penalty fi mi mii tol C solver).2).isSome) ∧
    (lsolver ≠ "newton-cg" ∧ lsolver ≠ "direct-solve" →
      ((LinearRegression.init fi mi tol C lsolver).2).isSome) := by
  refine ⟨?_, ?_, ?_⟩
  · intro hp
    by_cases hc : C ≤ 0 <;> simp [LogisticRegression.init, hc, hp]
  · intro hs
    by_cases hc : C ≤ 0
    · simp [LogisticRegression.init, hc]
    · by_cases hp : penalty = "l2" <;> simp [LogisticRegression.init, hc, hp, hs]
  · intro hs
    have : ¬ (lsolver = "newton-cg" ∨ lsolver = "direct-solve") := by
      rcases hs with ⟨h1, h2⟩
      rintro (h | h) <;> [exact h1 h; exact h2 h]
    simp [LinearRegression.init, this]

/-- Witness for C6 at concrete inputs: penalty "l1", solver "lbfgs" and
solver "cg" each make the corresponding constructor raise. -/
theorem claim6_penalty_solver_validation_witness :
    ((LogisticRegression.init "l1" true 100 0 (1 / 1000000) 1 "newton-cg").2).isSome ∧
    ((LogisticRegression.init "l2" true 100 0 (1 / 1000000) 1 "lbfgs").2).isSome ∧
    ((LinearRegression.init true 100 (1 / 1000000) 1 "cg").2).isSome := by
  have h := claim6_penalty_solver_validation "l1" true 100 0 (1 / 1000000) 1 "newton-cg" "cg"
  have h2 := claim6_penalty_solver_validation "l2" true 100 0 (1 / 1000000) 1 "lbfgs" "cg"
  exact ⟨h.1 (by decide), h2.2.1 (by decide), h.2.2 (by decide)⟩

/-- Host values passed to the estimator methods, at the granularity the
dispatch code inspects: NumPy array, pandas DataFrame, SciPy sparse matrix
(each with its shape), Spark DataFrame (which has `_jdf`, with its column
names), Python None, or anything else. -/
inductive PyValue where
  | npArray (rows cols : Nat)
  | pdDataFrame (rows cols : Nat)
  | scipySparse (rows cols : Nat)
  | sparkDF (cols : List String)
  | pyNone
  | otherVal (typeDesc : String)
deriving DecidableEq

/-- Modelled from the spec: `SUPPORTED_TYPES` lives in `converters.py`,
which is not among the sources; the spec and the method docstrings list
the supported host types as NumPy ndarray, pandas DataFrame and SciPy
sparse matrix. -/
def isSupportedType : PyValue → Bool
  | .npArray _ _ => true
  | .pdDataFrame _ _ => true
  | .scipySparse _ _ => true
  | _ => false

/-- Modelled from the spec: `getNumCols` lives in `converters.py`, which is
not among the sources; it returns the number of columns of a host value
(a one-dimensional vector counts one column). -/
def getNumCols : PyValue → Nat
  | .npArray _ c => c
  | .pdDataFrame _ c => c
  | .scipySparse _ c => c
  | _ => 0

/-- Modelled from the spec: `convertToPandasDF` lives in `converters.py`,
which is not among the sources; it converts a supported host value to a
pandas DataFrame of the same shape. -/
def convertToPandasDF : PyValue → PyValue
  | .npArray r c => .pdDataFrame r c
  | .scipySparse r c => .pdDataFrame r c
  | v => v

/-- Row count of a host value (shape bookkeeping for the fit checks). -/
def numRows : PyValue → Nat
  | .npArray r _ => r
  | .pdDataFrame r _ => r
  | .scipySparse r _ => r
  | _ => 0

/-- Which delegation path `fit` took; the remote calls themselves have no
further locally visible effect. -/
inductive FitOutcome where
  | fittedViaJdf
  | fittedViaAssembledDF
  | fittedViaMatrixBlock
deriving DecidableEq

/-- Embeds `BaseSystemMLEstimator.fit` (and the `_fit` helper it calls when
`y is None`): validation and dispatch up to the remote `estimator.fit`
call.  `featuresCol` and `labelCol` are the configured column names and
`transferUsingDF` the estimator's transfer flag. -/
def BaseSystemMLEstimator.fit (featuresCol labelCol : String)
    (transferUsingDF : Bool) (X y : PyValue) : Except PyError FitOutcome :=
  match y with
  | .pyNone =>
    match X with
    | .sparkDF cols =>
      if featuresCol ∈ cols ∧ labelCol ∈ cols then .ok .fittedViaJdf
      else .error (.exceptionMsg
        "Incorrect usage: Expected dataframe as input with features/label as columns")
    | _ => .error (.exceptionMsg
        "Incorrect usage: Expected dataframe as input with features/label as columns")
  | _ =>
    if isSupportedType X ∧ isSupportedType y then
      if transferUsingDF then
        let pdfX := convertToPandasDF X
        let pdfY := convertToPandasDF y
        if getNumCols pdfY ≠ 1 then
          .error (.exceptionMsg "y should be a column vector")
        else if numRows pdfX ≠ numRows pdfY then
          .error (.exceptionMsg "Number of rows of X and y should match")
        else .ok .fittedViaAssembledDF
      else
        if getNumCols y ≠ 1 then
          .error (.exceptionMsg "Expected y to be a column vector")
        else .ok .fittedViaMatrixBlock
    else .error (.exceptionMsg "Unsupported input type")

/-- What `predict` returns: a flattened NumPy array, a pandas DataFrame of
predictions, or a sorted Spark DataFrame, each carrying the prediction
column produced by the remote model. -/
inductive PredOut where
  | npArrayOut (preds : List Rat)
  | pandasOut (preds : List Rat)
  | sparkDFOut (preds : List Rat)
deriving DecidableEq

/-- The prediction column inside any `predict` result wrapper. -/
def predsOf : PredOut → List Rat
  | .npArrayOut p => p
  | .pandasOut p => p
  | .sparkDFOut p => p

/-- Embeds `BaseSystemMLEstimator.predict`: type dispatch up to the remote
`model.transform` round trip, which is abstracted as the oracle `tr`
giving the prediction column for a given input.  A supported host value
goes through the DataFrame path (returning a flattened ndarray for an
ndarray input, otherwise a pandas DataFrame) when `transferUsingDF`, and
through the matrix-block path (returning a NumPy array for every input;
the source has a TODO to convert to pandas) otherwise; a Spark DataFrame
input returns a sorted Spark DataFrame; anything else raises. -/
def BaseSystemMLEstimator.predict (featuresCol : String)
    (transferUsingDF : Bool) (tr : PyValue → List Rat) (X : PyValue) :
    Except PyError PredOut :=
  if isSupportedType X then
    if transferUsingDF then
      match X with
      | .npArray _ _ => .ok (.npArrayOut (tr X))
      | _ => .ok (.pandasOut (tr X))
    else .ok (.npArrayOut (tr X))
  else
    match X with
    | .sparkDF _ => .ok (.sparkDFOut (tr X))
    | _ => .error (.exceptionMsg "Unsupported input type")

/-- Embeds `BaseSystemMLEstimator.transform`, whose whole body is
`return self.predict(X)`. -/
def BaseSystemMLEstimator.transform (featuresCol : String)
    (transferUsingDF : Bool) (tr : PyValue → List Rat) (X : PyValue) :
    Except PyError PredOut :=
  BaseSystemMLEstimator.predict featuresCol transferUsingDF tr X

/-- Number of index positions where two paired columns agree. -/
def matchCount : List (Rat × Rat) → Nat
  | [] => 0
  | p :: rest => (if p.1 = p.2 then 1 else 0) + matchCount rest

/-- Modelled from the external statistics library: `accuracy_score` is the
fraction of positions where prediction equals ground truth. -/
def accuracy_score (yTrue yPred : List Rat) : Rat :=
  ((matchCount (yTrue.zip yPred) : Nat) : Rat) / (yTrue.length : Rat)

/-- Modelled from the external statistics library: the coefficient of
determination R² = 1 - SS_res / SS_tot for a single output column; with a
single column the variance-weighted multioutput aggregation coincides
with it. -/
def r2_score_variance_weighted (yTrue yPred : List Rat) : Rat :=
  let n : Rat := (yTrue.length : Rat)
  let mean := (yTrue.sum) / n
  let ssRes := ((yTrue.zip yPred).map (fun p => (p.1 - p.2) * (p.1 - p.2))).sum
  let ssTot := (yTrue.map (fun v => (v - mean) * (v - mean))).sum
  1 - ssRes / ssTot

/-- Embeds `BaseSystemMLClassifier.score`, whose body is
`return accuracy_score(y, self.predict(X))`: predict runs first, then the
metric is applied with ground truth first and predictions second.
`yData` is the numeric content of the ground-truth argument. -/
def BaseSystemMLClassifier.score (featuresCol : String)
    (transferUsingDF : Bool) (tr : PyValue → List Rat) (X : PyValue)
    (yData : List Rat) : Except PyError Rat :=
  match BaseSystemMLEstimator.predict featuresCol transferUsingDF tr X with
  | .error e => .error e
  | .ok p => .ok (accuracy_score yData (predsOf p))

/-- Embeds `BaseSystemMLRegressor.score`, whose body is
`return r2_score(y, self.predict(X), multioutput="variance_weighted")`. -/
def BaseSystemMLRegressor.score (featuresCol : String)
    (transferUsingDF : Bool) (tr : PyValue → List Rat) (X : PyValue)
    (yData : List Rat) : Except PyError Rat :=
  match BaseSystemMLEstimator.predict featuresCol transferUsingDF tr X with
  | .error e => .error e
  | .ok p => .ok (r2_score_variance_weighted yData (predsOf p))

/-- Claim C7: fit with no labels succeeds only for a Spark DataFrame
containing both configured columns and otherwise raises the descriptive
incorrect-usage error; fit with labels raises "Unsupported input type"
unless both X and y are of the supported host types, and additionally
raises the column-vector error when y has more than one column. -/
theorem claim7_fit_validation (featuresCol labelCol : String) (t : Bool)
    (X y : PyValue) :
    ((¬ ∃ cols, X = .sparkDF cols ∧ featuresCol ∈ cols ∧ labelCol ∈ cols) →
      BaseSystemMLEstimator.fit featuresCol labelCol t X .pyNone =
        .error (.exceptionMsg
          "Incorrect usage: Expected dataframe as input with features/label as columns")) ∧
    (∀ cols, X = .sparkDF cols → featuresCol ∈ cols → labelCol ∈ cols →
      BaseSystemMLEstimator.fit featuresCol labelCol t X .pyNone = .ok .fittedViaJdf) ∧
    (y ≠ .pyNone → ¬ (isSupportedType X = true ∧ isSupportedType y = true) →
      BaseSystemMLEstimator.fit featuresCol labelCol t X y =
        .error (.exceptionMsg "Unsupported input type")) ∧
    (y ≠ .pyNone → isSupportedType X = true → isSupportedType y = true →
      getNumCols y ≠ 1 →
      BaseSystemMLEstimator.fit featuresCol labelCol t X y =
        .error (.exceptionMsg
          (if t then "y should be a column vector" else "Expected y to be a column vector"))) := by
  refine ⟨?_, ?_, ?_, ?_⟩
  · intro hnot
    cases X with
    | sparkDF cols =>
      have hmem : ¬ (featuresCol ∈ cols ∧ labelCol ∈ cols) := by
        intro hc
        exact hnot ⟨cols, rfl, hc.1, hc.2⟩
      simp [BaseSystemMLEstimator.fit, hmem]
    | npArray r c => rfl
    | pdDataFrame r c => rfl
    | scipySparse r c => rfl
    | pyNone => rfl
    | otherVal d => rfl
  · intro cols hX h1 h2
    subst hX
    simp [BaseSystemMLEstimator.fit, h1, h2]
  · intro hy hns
    cases y <;> simp at hy <;> simp [BaseSystemMLEstimator.fit, hns]
  · intro hy hX hY hcols
    have hYcols : getNumCols (convertToPandasDF y) = getNumCols y := by
      cases y <;> simp_all [isSupportedType, convertToPandasDF, getNumCols]
    cases y with
    | pyNone => exact absurd rfl hy
    | npArray r c =>
      cases t <;> simp_all [BaseSystemMLEstimator.fit, isSupportedType]
    | pdDataFrame r c =>
      cases t <;> simp_all [BaseSystemMLEstimator.fit, isSupportedType]
    | scipySparse r c =>
      cases t <;> simp_all [BaseSystemMLEstimator.fit, isSupportedType]
    | sparkDF cols => simp [isSupportedType] at hY
    | otherVal d => simp [isSupportedType] at hY

/-- Witness for C7 at concrete inputs: fitting with no labels on an
ndarray raises the incorrect-usage error; fitting an ndarray against a
two-column label matrix raises the column-vector error; fitting against
an unsupported label value raises the unsupported-type error. -/
theorem claim7_fit_validation_witness :
    BaseSystemMLEstimator.fit "features" "label" false (.npArray 10 3) .pyNone =
      .error (.exceptionMsg
        "Incorrect usage: Expected dataframe as input with features/label as columns") ∧
    BaseSystemMLEstimator.fit "features" "label" false (.npArray 10 3) (.npArray 10 2) =
      .error (.exceptionMsg "Expected y to be a column vector") ∧
    BaseSystemMLEstimator.fit "features" "label" false (.npArray 10 3) (.otherVal "str") =
      .error (.exceptionMsg "Unsupported input type") := by
  have h1 := (claim7_fit_validation "features" "label" false (.npArray 10 3) .pyNone).1
    (by rintro ⟨cols, hc, -, -⟩; cases hc)
  have h2 := (claim7_fit_validation "features" "label" false (.npArray 10 3)
    (.npArray 10 2)).2.2.2 (by decide) (by decide) (by decide) (by decide)
  have h3 := (claim7_fit_validation "features" "label" false (.npArray 10 3)
    (.otherVal "str")).2.2.1 (by decide) (by decide)
  exact ⟨h1, by simpa using h2, h3⟩

/-- Claim C8: whenever predict succeeds, the classifier score is exactly
the external accuracy metric applied to (ground truth, predictions), and
the regressor score is exactly the external variance-weighted R² metric
applied to (ground truth, predictions). -/
theorem claim8_score_delegates (featuresCol : String) (t : Bool)
    (tr : PyValue → List Rat) (X : PyValue) (y : List Rat) (p : PredOut)
    (h : BaseSystemMLEstimator.predict featuresCol t tr X = .ok p) :
    BaseSystemMLClassifier.score featuresCol t tr X y =
      .ok (accuracy_score y (predsOf p)) ∧
    BaseSystemMLRegressor.score featuresCol t tr X y =
      .ok (r2_score_variance_weighted y (predsOf p)) := by
  constructor
  · simp [BaseSystemMLClassifier.score, h]
  · simp [BaseSystemMLRegressor.score, h]

/-- Witness for C8 at concrete inputs: with a remote model predicting
[1, 2, 2] on a 3-row matrix against ground truth [1, 2, 3], the
classifier score is the accuracy 2/3 and the regressor score is the
variance-weighted R² value. -/
theorem claim8_score_delegates_witness :
    BaseSystemMLClassifier.score "features" false (fun _ => [1, 2, 2])
      (.npArray 3 2) [1, 2, 3] = .ok (2 / 3) ∧
    BaseSystemMLRegressor.score "features" false (fun _ => [1, 2, 2])
      (.npArray 3 2) [1, 2, 3] = .ok (1 / 2) := by
  have h := claim8_score_delegates "features" false (fun _ => [1, 2, 2])
    (.npArray 3 2) [1, 2, 3] (.npArrayOut [1, 2, 2]) rfl
  refine ⟨?_, ?_⟩
  · rw [h.1]
    have hv : accuracy_score [1, 2, 3] (predsOf (PredOut.npArrayOut [1, 2, 2])) = 2 / 3 := by
      norm_num [accuracy_score, predsOf, matchCount, List.zip_cons_cons, List.zip_nil_right]
    rw [hv]
  · rw [h.2]
    have hv : r2_score_variance_weighted [1, 2, 3] (predsOf (PredOut.npArrayOut [1, 2, 2])) =
        1 / 2 := by
      norm_num [r2_score_variance_weighted, predsOf, List.zip_cons_cons, List.zip_nil_right,
        List.sum_cons, List.sum_nil]
    rw [hv]

/-- Claim C9: transform and predict are the same operation: transform's
body is exactly a call to predict on the same input. -/
theorem claim9_transform_is_predict (featuresCol : String) (t : Bool)
    (tr : PyValue → List Rat) (X : PyValue) :
    BaseSystemMLEstimator.transform featuresCol t tr X =
      BaseSystemMLEstimator.predict featuresCol t tr X := rfl
